import Mathlib

/-!
Verification of the STB Copilot frontend (src/frontend/script.js and
src/frontend/login.js) against its natural-language specification.

The JavaScript string operations are shallowly embedded as functions on
`String` implemented over the underlying character list (`String.data`),
so every definition is executable and kernel-reducible.  DOM mutations,
`localStorage` writes, navigation and `fetch` calls are modelled as
explicit effect lists produced by the event handlers.
-/

namespace STB

/-! ## JavaScript string primitives -/

/-- Model of JavaScript `String.prototype.trim`: drop leading and trailing
whitespace characters. -/
def jsTrim (s : String) : String :=
  ⟨((s.data.dropWhile Char.isWhitespace).reverse.dropWhile Char.isWhitespace).reverse⟩

/-- Split a character list at every occurrence of the separator, keeping
empty segments, exactly like JavaScript `split`. -/
def splitChar (sep : Char) : List Char → List (List Char)
  | [] => [[]]
  | c :: rest =>
    let r := splitChar sep rest
    if c = sep then [] :: r
    else
      match r with
      | h :: t => (c :: h) :: t
      | [] => [[c]]

/-- Model of JavaScript `answer.split('\n')`. -/
def splitLines (s : String) : List String :=
  (splitChar '\n' s.data).map String.mk

/-- Concatenation of a list of strings, modelling `Array.prototype.join('')`. -/
def joinAll : List String → String
  | [] => ""
  | s :: rest => s ++ joinAll rest

/-- Number of occurrences of a character in a string. -/
def countChar (c : Char) (s : String) : Nat :=
  s.data.count c

/-! ## escapeHtml (script.js lines 362-366)

The source sets `div.textContent = text` and reads back `div.innerHTML`,
which serializes a text node by replacing `&`, `<` and `>` with their
character entities and leaving every other character unchanged. -/

/-- Entity encoding of one character of a text node. -/
def escapeChar (c : Char) : List Char :=
  if c = '&' then "&amp;".data
  else if c = '<' then "&lt;".data
  else if c = '>' then "&gt;".data
  else [c]

/-- Model of `escapeHtml` from script.js. -/
def escapeHtml (s : String) : String :=
  ⟨(s.data.map escapeChar).flatten⟩

/-- A character list in which `<` and `>` never occur and `&` occurs only
as the head of one of the entities `&amp;`, `&lt;`, `&gt;`. -/
inductive WellEscaped : List Char → Prop
  | nil : WellEscaped []
  | amp {l : List Char} : WellEscaped l →
      WellEscaped ('&' :: 'a' :: 'm' :: 'p' :: ';' :: l)
  | lt {l : List Char} : WellEscaped l →
      WellEscaped ('&' :: 'l' :: 't' :: ';' :: l)
  | gt {l : List Char} : WellEscaped l →
      WellEscaped ('&' :: 'g' :: 't' :: ';' :: l)
  | chr {c : Char} {l : List Char} :
      c ≠ '&' → c ≠ '<' → c ≠ '>' → WellEscaped l → WellEscaped (c :: l)

/-! ## formatAnswer (script.js lines 177-206) -/

/-- Tail of the test for the regular expression `^\d+\.`: after the first
digit, further digits may follow until a literal dot. -/
def ordinalTail : List Char → Bool
  | '.' :: _ => true
  | c :: rest => c.isDigit && ordinalTail rest
  | [] => false

/-- Test for `/^\d+\./` : one or more digits followed by a dot. -/
def startsOrdinal (s : String) : Bool :=
  match s.data with
  | c :: rest => c.isDigit && ordinalTail rest
  | [] => false

/-- Model of `line.replace(/^\d+\.\s*/, '')`: when the line starts with
digits followed by a dot, remove them together with the following
whitespace run; otherwise leave the line unchanged. -/
def stripOrdinal (s : String) : String :=
  if startsOrdinal s then
    match s.data.dropWhile Char.isDigit with
    | '.' :: rest => ⟨rest.dropWhile Char.isWhitespace⟩
    | _ => s
  else s

/-- Test for `/^[•\-\*]/` : the first character is a bullet marker. -/
def startsBullet (s : String) : Bool :=
  match s.data with
  | c :: _ => c = '•' || c = '-' || c = '*'
  | [] => false

/-- Model of `line.replace(/^[•\-\*]\s*/, '')`. -/
def stripBullet (s : String) : String :=
  if startsBullet s then
    match s.data with
    | _ :: rest => ⟨rest.dropWhile Char.isWhitespace⟩
    | [] => s
  else s

/-- Model of the line extraction in formatAnswer, splitting on newline
and keeping only the non-blank lines. -/
def answerLines (answer : String) : List String :=
  (splitLines answer).filter (fun l => !(jsTrim l).isEmpty)

/-- Model of `formatAnswer` from script.js: if some non-blank line starts
with an ordinal marker the whole answer renders as an ordered list, else
if some line starts with a bullet marker it renders as an unordered list,
else every line becomes a paragraph. -/
def formatAnswer (answer : String) : String :=
  let lines := answerLines answer
  if lines.any (fun line => startsOrdinal (jsTrim line)) then
    "<ol>" ++ joinAll (lines.map (fun line =>
      "<li>" ++ escapeHtml (jsTrim (stripOrdinal line)) ++ "</li>")) ++ "</ol>"
  else if lines.any (fun line => startsBullet (jsTrim line)) then
    "<ul>" ++ joinAll (lines.map (fun line =>
      "<li>" ++ escapeHtml (jsTrim (stripBullet line)) ++ "</li>")) ++ "</ul>"
  else
    joinAll (lines.map (fun line => "<p>" ++ escapeHtml line ++ "</p>"))

/-- The spec's tagged format kinds for an answer (ordinal-marker rule,
bullet-marker rule, default-prose rule). -/
inductive FormatKind where
  | ordered
  | unordered
  | prose
deriving DecidableEq

/-- The spec's ordered set of pattern-matchers evaluated in priority
order over the whole answer: ordinal-marker rule first, then
bullet-marker rule, then default prose. -/
def classifyAnswer (lines : List String) : FormatKind :=
  if lines.any (fun line => startsOrdinal (jsTrim line)) then .ordered
  else if lines.any (fun line => startsBullet (jsTrim line)) then .unordered
  else .prose

/-- Rendering of one answer line under a given format kind, separate from
the classification logic. -/
def renderLineAs : FormatKind → String → String
  | .ordered, line => "<li>" ++ escapeHtml (jsTrim (stripOrdinal line)) ++ "</li>"
  | .unordered, line => "<li>" ++ escapeHtml (jsTrim (stripBullet line)) ++ "</li>"
  | .prose, line => "<p>" ++ escapeHtml line ++ "</p>"

/-- Wrapper element for a format kind. -/
def wrapKind : FormatKind → String → String
  | .ordered, body => "<ol>" ++ body ++ "</ol>"
  | .unordered, body => "<ul>" ++ body ++ "</ul>"
  | .prose, body => body

/-- The amended rendering contract: classify the whole answer into one
tagged format kind, then render every non-blank line under that kind. -/
def specFormatAnswerAmended (answer : String) : String :=
  let lines := answerLines answer
  let k := classifyAnswer lines
  wrapKind k (joinAll (lines.map (renderLineAs k)))

/-! ## Confidence badge (script.js lines 159-172) -/

/-- Model of the colorClass selection in createConfidenceBadge. -/
def confidenceColorClass (label : String) : String :=
  if label = "high" then "confidence-high"
  else if label = "medium" then "confidence-medium"
  else "confidence-low"

/-- Model of the icon selection in createConfidenceBadge. -/
def confidenceIcon (label : String) : String :=
  if label = "high" then "✓" else if label = "medium" then "~" else "!"

/-- The badge template of `createConfidenceBadge`, with its four
interpolation slots. -/
def badgeHtml (colorClass icon confText labelText : String) : String :=
  "<div class=\"confidence-badge " ++ colorClass ++
  "\"><span class=\"confidence-icon\">" ++ icon ++
  "</span><span class=\"confidence-text\">" ++ confText ++
  "</span><span class=\"confidence-label\">" ++ labelText ++
  "</span></div>"

/-- Model of `createConfidenceBadge` from script.js. -/
def createConfidenceBadge (confidence : Nat) (label : String) : String :=
  badgeHtml (confidenceColorClass label) (confidenceIcon label)
    ("Confidence: " ++ toString confidence ++ "%") ("(" ++ label ++ ")")

/-! ## Sources (script.js lines 211-240)

A source arriving from the backend is either a plain string (old format)
or an object with `text`, `document` and `type` fields (new format); the
object fields may be absent or empty, which JavaScript `||` treats as
falsy. -/

/-- A source value as received in the `/ask` response body. -/
inductive SourceVal where
  | str (s : String)
  | obj (text : String) (document : Option String) (srcType : Option String)
deriving DecidableEq

/-- JavaScript `v || dflt` on an optional string: `undefined` and the
empty string both fall back to the default. -/
def jsOr (v : Option String) (dflt : String) : String :=
  match v with
  | some s => if s.isEmpty then dflt else s
  | none => dflt

/-- Model of the text extraction in the createSourcesHtml callback: a
plain string is its own text, an object contributes its text field. -/
def sourceTextOf : SourceVal → String
  | .str s => s
  | .obj t _ _ => t

/-- Model of the document extraction in the createSourcesHtml callback:
the document field with fallback to the fixed unknown-document label (on
a plain string the document property is undefined). -/
def sourceDocOf : SourceVal → String
  | .str _ => jsOr none "Unknown document"
  | .obj _ d _ => jsOr d "Unknown document"

/-- Model of the type extraction in the createSourcesHtml callback: the
type field with fallback to the fixed default kind. -/
def sourceTypeOf : SourceVal → String
  | .str _ => jsOr none "procedure"
  | .obj _ _ ty => jsOr ty "procedure"

/-- The per-chunk template of `createSourcesHtml`, with slots for the
position label, the document name and the (escaped) chunk text. -/
def chunkTemplate (posLabel docName body : String) : String :=
  "<div class=\"source-chunk\"><div class=\"source-chunk-header\"><span class=\"source-chunk-label\">" ++
  posLabel ++ "</span><span class=\"source-document-name\">📄 " ++ docName ++
  "</span></div><div class=\"source-chunk-text\">" ++ body ++ "</div></div>"

/-- One entry of the `sources.map((source, index) => ...)` callback. -/
def sourceChunkHtml (index : Nat) (source : SourceVal) : String :=
  chunkTemplate ("Chunk " ++ toString (index + 1)) (sourceDocOf source)
    (escapeHtml (sourceTextOf source))

/-- The indexed map of the callback over the sources list, starting at a
given index. -/
def sourceItemsFrom (index : Nat) : List SourceVal → List String
  | [] => []
  | s :: rest => sourceChunkHtml index s :: sourceItemsFrom (index + 1) rest

/-- The wrapper template of `createSourcesHtml`: a toggle button stating
the chunk count followed by the (initially hidden) chunk entries. -/
def sourcesTemplate (countText pluralWord items : String) : String :=
  "<div class=\"source-chunks\"><button class=\"source-toggle\"><span class=\"arrow\">▶</span> View " ++
  countText ++ " source " ++ pluralWord ++
  "</button><div class=\"source-content\">" ++ items ++ "</div></div>"

/-- Model of `createSourcesHtml` from script.js. -/
def createSourcesHtml (sources : List SourceVal) : String :=
  sourcesTemplate (toString sources.length)
    (if sources.length = 1 then "chunk" else "chunks")
    (joinAll (sourceItemsFrom 0 sources))

/-- Model of the sources section of addAssistantMessage: rendered only
when a non-empty sources list is present. -/
def sourcesSection (sources : Option (List SourceVal)) : String :=
  match sources with
  | some ss => if ss.length > 0 then createSourcesHtml ss else ""
  | none => ""

/-! Spec-side normalization: the single tagged source shape
`{text, document, type}` of the spec's design note. -/

/-- The spec's single tagged source shape. -/
structure NormSource where
  text : String
  document : String
  srcType : String
deriving DecidableEq

/-- Boundary normalization of a heterogeneous source value into the
single tagged shape, exactly as the extraction at the top of the
`createSourcesHtml` callback computes it. -/
def normalizeSource : SourceVal → NormSource
  | s => ⟨sourceTextOf s, sourceDocOf s, sourceTypeOf s⟩

/-- Chunk entry rendered from the single tagged shape only. -/
def normChunkHtml (index : Nat) (n : NormSource) : String :=
  chunkTemplate ("Chunk " ++ toString (index + 1)) n.document (escapeHtml n.text)

/-- Indexed map of the normalized renderer. -/
def normItemsFrom (index : Nat) : List NormSource → List String
  | [] => []
  | n :: rest => normChunkHtml index n :: normItemsFrom (index + 1) rest

/-- Downstream renderer that only ever sees the single tagged shape. -/
def renderSourcesNormalized (ns : List NormSource) : String :=
  sourcesTemplate (toString ns.length)
    (if ns.length = 1 then "chunk" else "chunks")
    (joinAll (normItemsFrom 0 ns))

/-! ## User message (script.js lines 82-103) -/

/-- Template text of `addUserMessage` before the escaped question. -/
def userMsgPre : String :=
  "<div class=\"message user-message\"><div class=\"message-avatar\"><svg width=\"24\" height=\"24\" viewBox=\"0 0 24 24\" fill=\"none\"><circle cx=\"12\" cy=\"12\" r=\"10\"/><circle cx=\"12\" cy=\"10\" r=\"3\"/><path d=\"M6 20C6 16 8 14 12 14C16 14 18 16 18 20\"/></svg></div><div class=\"message-content\"><div class=\"message-text\"><p>"

/-- Template text of `addUserMessage` after the escaped question. -/
def userMsgPost : String := "</p></div></div></div>"

/-- The HTML `addUserMessage` assigns for a user question text. -/
def addUserMessageHtml (text : String) : String :=
  userMsgPre ++ escapeHtml text ++ userMsgPost

/-! ## Chat event handlers (script.js lines 54-77 and 260-314)

The handlers are modelled as pure functions from their inputs (form
value, stored session token, HTTP response) to the list of observable
effects they perform, in program order. -/

/-- The `/ask` request as assembled by `sendQuestion`. -/
structure AskRequest where
  method : String
  contentType : String
  authorization : String
  question : String
deriving DecidableEq

/-- Parsed JSON body of a `/ask` response. -/
structure AskBody where
  answer : String
  confidence : Nat
  confidence_label : String
  sources : Option (List SourceVal)
deriving DecidableEq

/-- A `/ask` HTTP response: status code, and the parsed JSON body when
parsing succeeds (`none` models a body `response.json()` rejects). -/
structure AskResponse where
  status : Nat
  body : Option AskBody
deriving DecidableEq

/-- Observable effects of the chat page handlers. -/
inductive Effect where
  | addUserMessage (text : String)
  | clearInput
  | setInputEnabled (enabled : Bool)
  | showLoading
  | hideLoading
  | sendRequest (r : AskRequest)
  | clearStorage
  | redirect (page : String)
  | renderAnswer (answer : String) (confidence : Nat) (label : String)
      (sources : Option (List SourceVal))
  | renderError (message : String)
  | focusInput
deriving DecidableEq

/-- The request `sendQuestion` sends for a question, carrying the stored
session token as a bearer credential. -/
def buildAskRequest (sessionToken question : String) : AskRequest :=
  { method := "POST"
    contentType := "application/json"
    authorization := "Bearer " ++ sessionToken
    question := question }

/-- Model of `handleSubmit` from script.js: trim the input, silently
return when it is empty, otherwise echo the question, clear and disable
the input, show the loading indicator and send the request. -/
def handleSubmit (sessionToken inputValue : String) : List Effect :=
  let question := jsTrim inputValue
  if question.isEmpty then []
  else
    [Effect.addUserMessage question, Effect.clearInput,
     Effect.setInputEnabled false, Effect.showLoading,
     Effect.sendRequest (buildAskRequest sessionToken question)]

/-- The fixed message `sendQuestion` shows on a failed request. -/
def askErrorMessage : String :=
  "Sorry, I encountered an error. Please make sure the backend server is running."

/-- Model of the response handling in `sendQuestion`: a 401 clears all
stored credentials and redirects to the login page before anything else;
a non-ok status or an unparsable body reaches the catch block; otherwise
the answer is rendered from the body fields. -/
def handleAskResponse (r : AskResponse) : List Effect :=
  if r.status = 401 then
    [Effect.clearStorage, Effect.redirect "login.html"]
  else if r.status < 200 || 300 ≤ r.status then
    [Effect.hideLoading, Effect.renderError askErrorMessage,
     Effect.setInputEnabled true]
  else
    match r.body with
    | some d =>
        [Effect.hideLoading,
         Effect.renderAnswer d.answer d.confidence d.confidence_label d.sources,
         Effect.setInputEnabled true, Effect.focusInput]
    | none =>
        [Effect.hideLoading, Effect.renderError askErrorMessage,
         Effect.setInputEnabled true]

/-- Effects that surface an error message to the user. -/
def isErrorSurface : Effect → Bool
  | .renderError _ => true
  | _ => false

/-! ## Login handler (login.js lines 40-92) -/

/-- A `/login` HTTP response as seen by `handleLogin` after a successful
`response.json()`: the `ok` flag of `fetch` plus the parsed body fields. -/
structure LoginResponse where
  ok : Bool
  success : Bool
  session_token : String
  userName : String
  userRole : String
  message : Option String
deriving DecidableEq

/-- Observable effects of the login page handler. -/
inductive LoginEffect where
  | showError (message : String)
  | showSuccess (message : String)
  | hideError
  | setFormEnabled (enabled : Bool)
  | setItem (key value : String)
  | redirect (page : String)
deriving DecidableEq

/-- Fallback text for `data.message || 'Email ou mot de passe incorrect'`. -/
def loginFallbackMessage : String := "Email ou mot de passe incorrect"

/-- Model of `handleLogin` from login.js.  `resp = none` models a fetch
or JSON-parsing failure reaching the catch block. -/
def handleLogin (emailValue passwordValue : String)
    (resp : Option LoginResponse) : List LoginEffect :=
  let email := jsTrim emailValue
  if email.isEmpty || passwordValue.isEmpty then
    [LoginEffect.showError "Veuillez remplir tous les champs"]
  else
    [LoginEffect.setFormEnabled false, LoginEffect.hideError] ++
    match resp with
    | none =>
        [LoginEffect.showError "Erreur de connexion. Veuillez réessayer.",
         LoginEffect.setFormEnabled true]
    | some r =>
        if r.ok && r.success then
          [LoginEffect.setItem "stb_session_token" r.session_token,
           LoginEffect.setItem "stb_user_name" r.userName,
           LoginEffect.setItem "stb_user_role" r.userRole,
           LoginEffect.showSuccess "Connexion réussie! Redirection...",
           LoginEffect.redirect "index.html"]
        else
          [LoginEffect.showError (jsOr r.message loginFallbackMessage),
           LoginEffect.setFormEnabled true]

/-! ## Auxiliary predicates for the claim statements -/

/-- Whether an effect list contains a rendered answer. -/
def containsRenderAnswer (es : List Effect) : Bool :=
  es.any fun e =>
    match e with
    | .renderAnswer _ _ _ _ => true
    | _ => false

/-- Whether a login effect list writes any stored credential. -/
def loginStores (es : List LoginEffect) : Bool :=
  es.any fun e =>
    match e with
    | .setItem _ _ => true
    | _ => false

/-- Whether a login effect list navigates away. -/
def loginRedirects (es : List LoginEffect) : Bool :=
  es.any fun e =>
    match e with
    | .redirect _ => true
    | _ => false

/-- A source value with its text blanked, used to state that the chunk
text contributes no markup characters to the rendered entry. -/
def blankSourceText : SourceVal → SourceVal
  | .str _ => .str ""
  | .obj _ d ty => .obj "" d ty

/-! ## Helper lemmas -/

theorem countChar_append (c : Char) (a b : String) :
    countChar c (a ++ b) = countChar c a + countChar c b := by
  simp [countChar, String.data_append, List.count_append]

theorem countChar_joinAll (c : Char) (l : List String) :
    countChar c (joinAll l) = (l.map (countChar c)).sum := by
  induction l with
  | nil => rfl
  | cons s rest ih => simp [joinAll, countChar_append, ih]

theorem escapeChar_count_lt (c : Char) : (escapeChar c).count '<' = 0 := by
  by_cases h1 : c = '&'
  · subst h1; decide
  by_cases h2 : c = '<'
  · subst h2; decide
  by_cases h3 : c = '>'
  · subst h3; decide
  simp [escapeChar, h1, h2, h3, List.count_cons, h2]

theorem escapeChar_count_gt (c : Char) : (escapeChar c).count '>' = 0 := by
  by_cases h1 : c = '&'
  · subst h1; decide
  by_cases h2 : c = '<'
  · subst h2; decide
  by_cases h3 : c = '>'
  · subst h3; decide
  simp [escapeChar, h1, h2, h3, List.count_cons, h3]

theorem countChar_escapeHtml_lt (s : String) : countChar '<' (escapeHtml s) = 0 := by
  show ((s.data.map escapeChar).flatten).count '<' = 0
  induction s.data with
  | nil => rfl
  | cons c rest ih => simp [List.count_append, ih, escapeChar_count_lt]

theorem countChar_escapeHtml_gt (s : String) : countChar '>' (escapeHtml s) = 0 := by
  show ((s.data.map escapeChar).flatten).count '>' = 0
  induction s.data with
  | nil => rfl
  | cons c rest ih => simp [List.count_append, ih, escapeChar_count_gt]

theorem WellEscaped.append {l₁ l₂ : List Char}
    (h₁ : WellEscaped l₁) (h₂ : WellEscaped l₂) : WellEscaped (l₁ ++ l₂) := by
  induction h₁ with
  | nil => exact h₂
  | amp _ ih => exact .amp ih
  | lt _ ih => exact .lt ih
  | gt _ ih => exact .gt ih
  | chr hc1 hc2 hc3 _ ih => exact .chr hc1 hc2 hc3 ih

theorem wellEscaped_escapeChar (c : Char) : WellEscaped (escapeChar c) := by
  by_cases h1 : c = '&'
  · subst h1; exact .amp .nil
  by_cases h2 : c = '<'
  · subst h2; exact .lt .nil
  by_cases h3 : c = '>'
  · subst h3; exact .gt .nil
  simpa [escapeChar, h1, h2, h3] using WellEscaped.chr h1 h2 h3 .nil

theorem wellEscaped_escapeHtml (s : String) : WellEscaped (escapeHtml s).data := by
  show WellEscaped (s.data.map escapeChar).flatten
  induction s.data with
  | nil => exact .nil
  | cons c rest ih =>
      simpa using (wellEscaped_escapeChar c).append ih

theorem sum_map_of_const {α : Type} (l : List α) (g : α → Nat) (k : Nat)
    (h : ∀ x, g x = k) : (l.map g).sum = k * l.length := by
  induction l with
  | nil => simp
  | cons x rest ih => simp [h, ih, Nat.mul_succ]; omega

theorem sourceItemsFrom_length (l : List SourceVal) :
    ∀ i, (sourceItemsFrom i l).length = l.length := by
  induction l with
  | nil => intro i; rfl
  | cons s rest ih => intro i; simp [sourceItemsFrom, ih]

theorem sourceItemsFrom_getElem (l : List SourceVal) :
    ∀ i j, (sourceItemsFrom i l)[j]? = (l[j]?).map (fun s => sourceChunkHtml (i + j) s) := by
  induction l with
  | nil => intro i j; simp [sourceItemsFrom]
  | cons s rest ih =>
      intro i j
      cases j with
      | zero => simp [sourceItemsFrom]
      | succ j' =>
          have := ih (i + 1) j'
          simpa [sourceItemsFrom, Nat.add_assoc, Nat.add_comm, Nat.add_left_comm] using this

theorem sourceItemsFrom_eq_norm (l : List SourceVal) :
    ∀ i, sourceItemsFrom i l = normItemsFrom i (l.map normalizeSource) := by
  induction l with
  | nil => intro i; rfl
  | cons s rest ih =>
      intro i
      simp [sourceItemsFrom, normItemsFrom, ih]
      rfl

/-! ## Claim theorems -/

/-- C1: for every response to the /ask request whose HTTP status is 401,
the client clears all stored credentials and redirects to the login page,
and no Answer is rendered or otherwise processed from that response. -/
theorem c1_unauthorized_clears_and_redirects (r : AskResponse)
    (h : r.status = 401) :
    handleAskResponse r = [Effect.clearStorage, Effect.redirect "login.html"]
    ∧ containsRenderAnswer (handleAskResponse r) = false := by
  have hr : handleAskResponse r
      = [Effect.clearStorage, Effect.redirect "login.html"] := by
    simp [handleAskResponse, h]
  exact ⟨hr, by rw [hr]; rfl⟩

theorem c1_witness :
    handleAskResponse ⟨401, none⟩
      = [Effect.clearStorage, Effect.redirect "login.html"]
    ∧ containsRenderAnswer (handleAskResponse ⟨401, none⟩) = false :=
  c1_unauthorized_clears_and_redirects ⟨401, none⟩ rfl

/-- C4, as stated, is false: an empty or whitespace-only question is
indeed rejected with no /ask request sent, but the rejection is silent —
the handler performs no effect at all, so no client error is surfaced. -/
theorem c4_counterexample :
    handleSubmit "tok" "   " = []
    ∧ (handleSubmit "tok" "   ").any isErrorSurface = false := by
  decide

/-- C4 (amended): for every question that is empty or whitespace-only,
submission is rejected before retrieval — the handler performs no effect
at all, so in particular no /ask request is sent; the rejection is
silent, with no client error displayed. -/
theorem c4_empty_question_rejected_silently (sessionToken inputValue : String)
    (h : (jsTrim inputValue).isEmpty = true) :
    handleSubmit sessionToken inputValue = [] := by
  simp [handleSubmit, h]

theorem c4_witness :
    (jsTrim " \n ").isEmpty = true ∧ handleSubmit "tok2" " \n " = [] :=
  ⟨by decide, c4_empty_question_rejected_silently "tok2" " \n " (by decide)⟩

/-- C5: every /ask request is a POST carrying the bearer session token
and the trimmed question as body, and on a 200 response the rendered
answer, confidence, confidence label and sources are the response body
fields of the same names. -/
theorem c5_request_shape_and_success_rendering (sessionToken inputValue : String)
    (r : AskResponse) (d : AskBody)
    (hv : (jsTrim inputValue).isEmpty = false)
    (hs : r.status = 200) (hb : r.body = some d) :
    handleSubmit sessionToken inputValue
      = [Effect.addUserMessage (jsTrim inputValue), Effect.clearInput,
         Effect.setInputEnabled false, Effect.showLoading,
         Effect.sendRequest
           { method := "POST", contentType := "application/json",
             authorization := "Bearer " ++ sessionToken,
             question := jsTrim inputValue }]
    ∧ handleAskResponse r
      = [Effect.hideLoading,
         Effect.renderAnswer d.answer d.confidence d.confidence_label d.sources,
         Effect.setInputEnabled true, Effect.focusInput] := by
  constructor
  · simp [handleSubmit, hv, buildAskRequest]
  · simp [handleAskResponse, hs, hb]

theorem c5_witness :
    ((jsTrim " hi ").isEmpty = false)
    ∧ (handleSubmit "tok" " hi "
        = [Effect.addUserMessage (jsTrim " hi "), Effect.clearInput,
           Effect.setInputEnabled false, Effect.showLoading,
           Effect.sendRequest
             { method := "POST", contentType := "application/json",
               authorization := "Bearer " ++ "tok",
               question := jsTrim " hi " }]
      ∧ handleAskResponse ⟨200, some ⟨"ans", 90, "high", some [.str "chunk"]⟩⟩
        = [Effect.hideLoading,
           Effect.renderAnswer "ans" 90 "high" (some [.str "chunk"]),
           Effect.setInputEnabled true, Effect.focusInput]) :=
  ⟨by decide,
   c5_request_shape_and_success_rendering "tok" " hi "
     ⟨200, some ⟨"ans", 90, "high", some [.str "chunk"]⟩⟩
     ⟨"ans", 90, "high", some [.str "chunk"]⟩ (by decide) rfl rfl⟩

/-- C6: for every successful login response the handler stores exactly
the session token, user name and user role, and then redirects to the
main application page. -/
theorem c6_successful_login_stores_and_redirects
    (emailValue passwordValue : String) (r : LoginResponse)
    (he : (jsTrim emailValue).isEmpty = false)
    (hp : passwordValue.isEmpty = false)
    (hok : r.ok = true) (hs : r.success = true) :
    handleLogin emailValue passwordValue (some r)
      = [LoginEffect.setFormEnabled false, LoginEffect.hideError,
         LoginEffect.setItem "stb_session_token" r.session_token,
         LoginEffect.setItem "stb_user_name" r.userName,
         LoginEffect.setItem "stb_user_role" r.userRole,
         LoginEffect.showSuccess "Connexion réussie! Redirection...",
         LoginEffect.redirect "index.html"] := by
  simp [handleLogin, he, hp, hok, hs]

theorem c6_witness :
    handleLogin " a@b.tn " "pw" (some ⟨true, true, "tk", "Amal", "agent", none⟩)
      = [LoginEffect.setFormEnabled false, LoginEffect.hideError,
         LoginEffect.setItem "stb_session_token" "tk",
         LoginEffect.setItem "stb_user_name" "Amal",
         LoginEffect.setItem "stb_user_role" "agent",
         LoginEffect.showSuccess "Connexion réussie! Redirection...",
         LoginEffect.redirect "index.html"] :=
  c6_successful_login_stores_and_redirects " a@b.tn " "pw"
    ⟨true, true, "tk", "Amal", "agent", none⟩ (by decide) (by decide) rfl rfl

/-- C7: for every failed login response (unsuccessful body or non-OK
status) the handler stores no credential, displays the failure message
(with the fixed fallback when none is given), re-enables the form and
does not redirect; a network or parse failure likewise shows a fixed
message, stores nothing and stays on the page. -/
theorem c7_failed_login_keeps_state (emailValue passwordValue : String)
    (r : LoginResponse)
    (he : (jsTrim emailValue).isEmpty = false)
    (hp : passwordValue.isEmpty = false)
    (hf : (r.ok && r.success) = false) :
    handleLogin emailValue passwordValue (some r)
      = [LoginEffect.setFormEnabled false, LoginEffect.hideError,
         LoginEffect.showError (jsOr r.message loginFallbackMessage),
         LoginEffect.setFormEnabled true]
    ∧ loginStores (handleLogin emailValue passwordValue (some r)) = false
    ∧ loginRedirects (handleLogin emailValue passwordValue (some r)) = false
    ∧ (∀ m : String, jsOr (some m) loginFallbackMessage
        = if m.isEmpty then loginFallbackMessage else m)
    ∧ jsOr none loginFallbackMessage = loginFallbackMessage
    ∧ handleLogin emailValue passwordValue none
      = [LoginEffect.setFormEnabled false, LoginEffect.hideError,
         LoginEffect.showError "Erreur de connexion. Veuillez réessayer.",
         LoginEffect.setFormEnabled true] := by
  have hr : handleLogin emailValue passwordValue (some r)
      = [LoginEffect.setFormEnabled false, LoginEffect.hideError,
         LoginEffect.showError (jsOr r.message loginFallbackMessage),
         LoginEffect.setFormEnabled true] := by
    simp [handleLogin, he, hp, hf]
  refine ⟨hr, ?_, ?_, fun m => rfl, rfl, ?_⟩
  · rw [hr]; rfl
  · rw [hr]; rfl
  · simp [handleLogin, he, hp]

theorem c7_witness :
    handleLogin "a@b.tn" "pw" (some ⟨true, false, "", "", "", some "Bad credentials"⟩)
      = [LoginEffect.setFormEnabled false, LoginEffect.hideError,
         LoginEffect.showError
           (jsOr (some "Bad credentials") loginFallbackMessage),
         LoginEffect.setFormEnabled true]
    ∧ loginStores (handleLogin "a@b.tn" "pw"
        (some ⟨true, false, "", "", "", some "Bad credentials"⟩)) = false
    ∧ loginRedirects (handleLogin "a@b.tn" "pw"
        (some ⟨true, false, "", "", "", some "Bad credentials"⟩)) = false
    ∧ (∀ m : String, jsOr (some m) loginFallbackMessage
        = if m.isEmpty then loginFallbackMessage else m)
    ∧ jsOr none loginFallbackMessage = loginFallbackMessage
    ∧ handleLogin "a@b.tn" "pw" none
      = [LoginEffect.setFormEnabled false, LoginEffect.hideError,
         LoginEffect.showError "Erreur de connexion. Veuillez réessayer.",
         LoginEffect.setFormEnabled true] :=
  c7_failed_login_keeps_state "a@b.tn" "pw"
    ⟨true, false, "", "", "", some "Bad credentials"⟩ (by decide) (by decide) rfl

/-- C2, as stated, is false: the format rules are applied to the whole
answer, not line by line.  In the answer consisting of the line Intro
followed by an ordinal item, the line Intro starts with neither an
ordinal nor a bullet marker, yet it renders as an ordered-list item —
so it is not the case that exactly the marker lines render as list
items. -/
theorem c2_counterexample :
    formatAnswer "Intro\n1. A" = "<ol><li>Intro</li><li>A</li></ol>"
    ∧ startsOrdinal (jsTrim "Intro") = false
    ∧ startsBullet (jsTrim "Intro") = false := by
  decide

/-- C2 (amended): rendering applies the ordered set of format rules —
ordinal-marker rule first, then bullet-marker rule, then default prose —
to the whole answer, selecting one tagged format kind: if any non-blank
line starts with a digit-and-period, every non-blank line renders as an
ordered-list item (with a leading ordinal marker stripped where
present); otherwise if any non-blank line starts with a bullet
character, every non-blank line renders as an unordered-list item;
otherwise every non-blank line renders as a prose paragraph. -/
theorem c2_format_rules_apply_whole_answer (answer : String) :
    formatAnswer answer = specFormatAnswerAmended answer := by
  unfold formatAnswer specFormatAnswerAmended classifyAnswer
  by_cases h1 : ((answerLines answer).any fun line => startsOrdinal (jsTrim line)) = true
  · simp only [h1, if_true]
    rfl
  · by_cases h2 : ((answerLines answer).any fun line => startsBullet (jsTrim line)) = true
    · simp only [h1, h2, if_true, Bool.false_eq_true, if_false]
      rfl
    · simp only [h1, h2, Bool.false_eq_true, if_false]
      rfl

/-- C3: every source is normalized into the single tagged shape
{text, document, type}, and the rendering factors through that
normalization, so downstream of the boundary only the single shape is
ever handled. -/
theorem c3_sources_normalized_at_boundary (sources : List SourceVal) :
    createSourcesHtml sources
      = renderSourcesNormalized (sources.map normalizeSource)
    ∧ (∀ s, normalizeSource s = ⟨sourceTextOf s, sourceDocOf s, sourceTypeOf s⟩) := by
  constructor
  · unfold createSourcesHtml renderSourcesNormalized
    rw [sourceItemsFrom_eq_norm, List.length_map]
  · intro s; rfl

/-- C8: each confidence label selects its distinct visual style and icon
(high: confidence-high with ✓, medium: confidence-medium with ~, low:
confidence-low with !), and the badge text shows the numeric confidence
as a percentage together with the label. -/
theorem c8_confidence_badge_styles (confidence : Nat) :
    createConfidenceBadge confidence "high"
      = badgeHtml "confidence-high" "✓"
          ("Confidence: " ++ toString confidence ++ "%") "(high)"
    ∧ createConfidenceBadge confidence "medium"
      = badgeHtml "confidence-medium" "~"
          ("Confidence: " ++ toString confidence ++ "%") "(medium)"
    ∧ createConfidenceBadge confidence "low"
      = badgeHtml "confidence-low" "!"
          ("Confidence: " ++ toString confidence ++ "%") "(low)"
    ∧ confidenceColorClass "high" ≠ confidenceColorClass "medium"
    ∧ confidenceColorClass "high" ≠ confidenceColorClass "low"
    ∧ confidenceColorClass "medium" ≠ confidenceColorClass "low"
    ∧ confidenceIcon "high" ≠ confidenceIcon "medium"
    ∧ confidenceIcon "high" ≠ confidenceIcon "low"
    ∧ confidenceIcon "medium" ≠ confidenceIcon "low" := by
  refine ⟨rfl, rfl, rfl, ?_, ?_, ?_, ?_, ?_, ?_⟩ <;> decide

/-- C9: for a non-empty sources sequence the rendering wraps the entries
behind a disclosure whose button states the chunk count, produces one
entry per source, and the entry at each position carries its one-based
position label, its document name and its (escaped) text; for an empty
or absent sources sequence no sources section is rendered. -/
theorem c9_sources_entries_labeled (ss : List SourceVal) (j : Nat)
    (s : SourceVal) (hne : ss ≠ []) (hj : ss[j]? = some s) :
    sourcesSection (some ss) = createSourcesHtml ss
    ∧ createSourcesHtml ss
      = sourcesTemplate (toString ss.length)
          (if ss.length = 1 then "chunk" else "chunks")
          (joinAll (sourceItemsFrom 0 ss))
    ∧ (sourceItemsFrom 0 ss).length = ss.length
    ∧ (sourceItemsFrom 0 ss)[j]?
      = some (chunkTemplate ("Chunk " ++ toString (j + 1))
          (sourceDocOf s) (escapeHtml (sourceTextOf s)))
    ∧ sourcesSection none = ""
    ∧ sourcesSection (some []) = "" := by
  have hpos : ss.length > 0 := List.length_pos.mpr hne
  refine ⟨?_, rfl, sourceItemsFrom_length ss 0, ?_, rfl, rfl⟩
  · simp [sourcesSection, hpos]
  · rw [sourceItemsFrom_getElem, hj]
    simp [sourceChunkHtml]

theorem c9_witness :
    sourcesSection (some [SourceVal.obj "Bring an ID card."
        (some "procedure.txt") (some "requirement")])
      = createSourcesHtml [SourceVal.obj "Bring an ID card."
          (some "procedure.txt") (some "requirement")]
    ∧ createSourcesHtml [SourceVal.obj "Bring an ID card."
        (some "procedure.txt") (some "requirement")]
      = sourcesTemplate
          (toString ([SourceVal.obj "Bring an ID card."
            (some "procedure.txt") (some "requirement")]).length)
          (if ([SourceVal.obj "Bring an ID card."
            (some "procedure.txt") (some "requirement")]).length = 1
           then "chunk" else "chunks")
          (joinAll (sourceItemsFrom 0 [SourceVal.obj "Bring an ID card."
            (some "procedure.txt") (some "requirement")]))
    ∧ (sourceItemsFrom 0 [SourceVal.obj "Bring an ID card."
        (some "procedure.txt") (some "requirement")]).length
      = ([SourceVal.obj "Bring an ID card."
          (some "procedure.txt") (some "requirement")]).length
    ∧ (sourceItemsFrom 0 [SourceVal.obj "Bring an ID card."
        (some "procedure.txt") (some "requirement")])[0]?
      = some (chunkTemplate ("Chunk " ++ toString (0 + 1))
          (sourceDocOf (SourceVal.obj "Bring an ID card."
            (some "procedure.txt") (some "requirement")))
          (escapeHtml (sourceTextOf (SourceVal.obj "Bring an ID card."
            (some "procedure.txt") (some "requirement")))))
    ∧ sourcesSection none = ""
    ∧ sourcesSection (some []) = "" :=
  c9_sources_entries_labeled
    [SourceVal.obj "Bring an ID card." (some "procedure.txt") (some "requirement")]
    0 (SourceVal.obj "Bring an ID card." (some "procedure.txt") (some "requirement"))
    (by decide) rfl

/-- Helper: the number of occurrences of a character in the
concatenation of per-line fragments, when every fragment contains the
same number of occurrences. -/
theorem countChar_items (t : Char) (lines : List String) (g : String → String)
    (k : Nat) (h : ∀ line, countChar t (g line) = k) :
    countChar t (joinAll (lines.map g)) = k * lines.length := by
  rw [countChar_joinAll, List.map_map]
  exact sum_map_of_const _ _ k (fun x => h x)

/-- C10: the user question, every rendered answer line or list item, and
every source chunk text pass through the HTML-escaping function, whose
output contains no raw angle bracket and in which every ampersand starts
an entity; consequently the markup produced for the user message has the
same number of tag-opening characters as for an empty question, the
markup produced for an answer has exactly the tag-opening characters of
its structural template, and a source chunk entry has exactly the
tag-opening characters it would have with an empty chunk text. -/
theorem c10_user_text_always_escaped :
    (∀ t : String, WellEscaped (escapeHtml t).data)
    ∧ (∀ t : String, countChar '<' (escapeHtml t) = 0
        ∧ countChar '>' (escapeHtml t) = 0)
    ∧ (∀ q : String, countChar '<' (addUserMessageHtml q)
        = countChar '<' (addUserMessageHtml ""))
    ∧ (∀ a : String, countChar '<' (formatAnswer a)
        = (if ((answerLines a).any fun line => startsOrdinal (jsTrim line))
              || ((answerLines a).any fun line => startsBullet (jsTrim line))
           then 2 else 0) + 2 * (answerLines a).length)
    ∧ (∀ (i : Nat) (s : SourceVal), countChar '<' (sourceChunkHtml i s)
        = countChar '<' (sourceChunkHtml i (blankSourceText s))) := by
  refine ⟨wellEscaped_escapeHtml,
    fun t => ⟨countChar_escapeHtml_lt t, countChar_escapeHtml_gt t⟩, ?_, ?_, ?_⟩
  · intro q
    simp [addUserMessageHtml, countChar_append, countChar_escapeHtml_lt]
  · intro a
    by_cases h1 : ((answerLines a).any fun line => startsOrdinal (jsTrim line)) = true
    · have hitems := countChar_items '<' (answerLines a)
        (fun line => "<li>" ++ escapeHtml (jsTrim (stripOrdinal line)) ++ "</li>") 2
        (fun line => by
          rw [countChar_append, countChar_append, countChar_escapeHtml_lt]; decide)
      have e0 : countChar '<' "<ol>" = 1 := by decide
      have e1 : countChar '<' "</ol>" = 1 := by decide
      simp only [formatAnswer, h1, if_true]
      rw [countChar_append, countChar_append, hitems, e0, e1]
      simp [h1]
      omega
    · by_cases h2 : ((answerLines a).any fun line => startsBullet (jsTrim line)) = true
      · have hitems := countChar_items '<' (answerLines a)
          (fun line => "<li>" ++ escapeHtml (jsTrim (stripBullet line)) ++ "</li>") 2
          (fun line => by
            rw [countChar_append, countChar_append, countChar_escapeHtml_lt]; decide)
        have e0 : countChar '<' "<ul>" = 1 := by decide
        have e1 : countChar '<' "</ul>" = 1 := by decide
        simp only [formatAnswer, h1, h2, if_true, if_false, Bool.false_eq_true]
        rw [countChar_append, countChar_append, hitems, e0, e1]
        simp [h1, h2]
        omega
      · have hitems := countChar_items '<' (answerLines a)
          (fun line => "<p>" ++ escapeHtml line ++ "</p>") 2
          (fun line => by
            rw [countChar_append, countChar_append, countChar_escapeHtml_lt]; decide)
        simp only [formatAnswer, h1, h2, if_false, Bool.false_eq_true]
        rw [hitems]
        simp [h1, h2]
  · intro i s
    cases s <;>
      simp [sourceChunkHtml, chunkTemplate, blankSourceText, sourceDocOf,
        sourceTextOf, countChar_append, countChar_escapeHtml_lt]

end STB
